import Mathlib

/-!
Shallow embedding of the orders-service repository (Go) core:

- data model: `Order`, `CreateOrderRequest`, `OrderCreatedEvent`,
  the `idempotency_keys` table rows (`IdempotencyRecord`);
- repository layer: `OrderRepository.CreateOrder`,
  `OrderRepository.GetIdempotencyResponse`,
  `OrderRepository.StoreIdempotencyResponse` (as pure functions over the
  database state, with injected fault flags standing for driver errors);
- service layer: `OrderService.CreateOrder` (idempotency lookup, order
  persistence, best-effort idempotency write, non-blocking event enqueue);
- handler layer: the gin binding validation of `CreateOrderRequest` and the
  POST handler `OrderHandler.CreateOrder`;
- the event worker select loop (`Worker.iteration`).

Modelling conventions:
- `time.Time` is modelled as `Nat` nanoseconds since the epoch; the Go zero
  time corresponds to `0` (`IsZero` becomes `= 0`). `time.Duration` is `Nat`
  nanoseconds.
- `float64` prices are modelled as `Rat`; the claims only compare prices
  with `0` and pass them through, which real arithmetic on the occurring
  values matches exactly.
- Database faults and the environment (current times, the generated UUID,
  channel/context states) are explicit inputs collected in `Env`.
- JSON bytes stored in the `response` column are modelled by `RespBytes`:
  `json.Marshal` of an `Order` (a struct of basic types, which cannot fail)
  is the injection `RespBytes.encoded`, and `json.Unmarshal` into an `Order`
  succeeds exactly on such encoded bytes; `RespBytes.garbage` stands for any
  stored bytes that do not deserialize into an `Order`.
-/

/-- An order row, mirroring `models.Order` (`id`, `customer_id`,
`product_id`, `quantity`, `total_price`, `status`, `order_time`,
`created_at`, `updated_at`). -/
structure Order where
  id         : String
  customerID : String
  productID  : String
  quantity   : Int
  totalPrice : Rat
  status     : String
  orderTime  : Nat
  createdAt  : Nat
  updatedAt  : Nat
  deriving Repr, DecidableEq

/-- The creation request body, mirroring `models.CreateOrderRequest`. -/
structure CreateOrderRequest where
  customerID     : String
  productID      : String
  quantity       : Int
  totalPrice     : Rat
  orderTime      : Nat
  idempotencyKey : String
  deriving Repr, DecidableEq

/-- The event payload, mirroring `events.OrderCreatedEvent`. -/
structure OrderCreatedEvent where
  orderID    : String
  customerID : String
  productID  : String
  quantity   : Int
  totalPrice : Rat
  timestamp  : Nat
  deriving Repr, DecidableEq

/-- Bytes stored in the `response` JSONB column: either the JSON encoding of
an `Order` (the only thing the service ever stores) or bytes that fail to
unmarshal into an `Order`. -/
inductive RespBytes where
  | encoded (o : Order)
  | garbage
  deriving Repr, DecidableEq

/-- `json.Unmarshal(savedResponse, &order)`: succeeds exactly on encoded
orders. -/
def jsonUnmarshalOrder : RespBytes → Option Order
  | .encoded o => some o
  | .garbage => none

/-- A row of the `idempotency_keys` table: primary key
`(endpoint_name, endpoint_scheme, key)`, plus `response`, `valid_to`,
`created_at`. -/
structure IdempotencyRecord where
  endpointName   : String
  endpointScheme : String
  key            : String
  response       : RespBytes
  validTo        : Nat
  createdAt      : Nat
  deriving Repr, DecidableEq

/-- The two tables the repository operates on. -/
structure DbState where
  orders : List Order
  idem   : List IdempotencyRecord
  deriving Repr, DecidableEq

/-- Repository errors: the two sentinel errors of the source plus a generic
driver/database error. -/
inductive RepoErr where
  | orderNotFound
  | idempotencyNotFound
  | dbError
  deriving Repr, DecidableEq

/-- One nanosecond-valued minute, so `10 * time.Minute` is expressible. -/
def minuteNs : Nat := 60 * 1000000000

namespace OrderRepository

/-- `OrderRepository.CreateOrder`: stamps the draft (fresh UUID as `id`,
`order_time` defaulted to now when the draft's time is zero, `created_at` and
`updated_at` set to now, status `"created"`) and inserts the row. `dbErr`
injects an `ExecContext` failure, in which case no row is written. Returns
the new table and the populated order. -/
def CreateOrder (orders : List Order) (now : Nat) (freshId : String)
    (dbErr : Bool) (draft : Order) : Except RepoErr (List Order × Order) :=
  let o : Order :=
    { draft with
      id := freshId
      orderTime := if draft.orderTime = 0 then now else draft.orderTime
      createdAt := now
      updatedAt := now
      status := "created" }
  if dbErr then .error .dbError else .ok (orders ++ [o], o)

/-- The WHERE clause of `GetIdempotencyResponse`:
`endpoint_name = $1 AND endpoint_scheme = $2 AND key = $3 AND valid_to > NOW()`. -/
def idemRowMatches (en es key : String) (now : Nat)
    (r : IdempotencyRecord) : Bool :=
  r.endpointName == en && r.endpointScheme == es && r.key == key
    && now < r.validTo

/-- The key-triple part of the WHERE clause / the conflict target of the
upsert, without the expiry filter. -/
def tripleMatches (en es key : String) (r : IdempotencyRecord) : Bool :=
  r.endpointName == en && r.endpointScheme == es && r.key == key

/-- `OrderRepository.GetIdempotencyResponse`: selects the `response` of the
row matching the key-triple with `valid_to > NOW()`; `sql.ErrNoRows` is
mapped to `ErrIdempotencyNotFound`. `dbErr` injects any other query error. -/
def GetIdempotencyResponse (idem : List IdempotencyRecord) (now : Nat)
    (dbErr : Bool) (en es key : String) : Except RepoErr RespBytes :=
  if dbErr then .error .dbError
  else
    match idem.find? (idemRowMatches en es key now) with
    | some r => .ok r.response
    | none => .error .idempotencyNotFound

/-- `OrderRepository.StoreIdempotencyResponse`: marshals the order (which
cannot fail for an `Order` struct), computes `valid_to = now + validity`, and
upserts on the key-triple; `ON CONFLICT (endpoint_name, endpoint_scheme, key)
DO UPDATE SET response = EXCLUDED.response, valid_to = EXCLUDED.valid_to`
replaces only those two columns, while a fresh insert also sets
`created_at = now`. `dbErr` injects an `ExecContext` failure. -/
def StoreIdempotencyResponse (idem : List IdempotencyRecord) (now : Nat)
    (dbErr : Bool) (en es key : String) (resp : Order) (validity : Nat) :
    Except RepoErr (List IdempotencyRecord) :=
  if dbErr then .error .dbError
  else
    let bytes := RespBytes.encoded resp
    let validTo := now + validity
    if idem.any (tripleMatches en es key) then
      .ok (idem.map fun r =>
        if tripleMatches en es key r then
          { r with response := bytes, validTo := validTo }
        else r)
    else
      .ok (idem ++ [{ endpointName := en, endpointScheme := es, key := key,
                      response := bytes, validTo := validTo,
                      createdAt := now }])

end OrderRepository

/-- The three mutually exclusive outcomes of the non-blocking select in step 4
of `OrderService.CreateOrder`. -/
inductive EnqueueOutcome where
  | delivered
  | droppedCancelled
  | droppedFull
  deriving Repr, DecidableEq

/-- The three-way `select` of step 4: the send case is ready iff the channel
has room, the `ctx.Done()` case is ready iff the context is cancelled, and
`default` fires only when neither is ready. When both the send and the
cancellation cases are ready Go picks one of them nondeterministically;
`pick` resolves that choice (`true` selects the send). The attempt never
blocks: every input yields exactly one outcome. -/
def enqueueEvent (ctxCancelled queueFull pick : Bool) : EnqueueOutcome :=
  if ctxCancelled then
    if queueFull then .droppedCancelled
    else if pick then .delivered else .droppedCancelled
  else if queueFull then .droppedFull
  else .delivered

/-- The environment of one `CreateOrder` call: the wall-clock readings of its
successive `NOW()`/`time.Now()` calls, the UUID the store will generate, the
injected database faults, and the channel/context state at the enqueue step. -/
structure Env where
  nowGet         : Nat
  nowCreate      : Nat
  nowStore       : Nat
  nowEvent       : Nat
  freshId        : String
  getIdemDbErr   : Bool
  createDbErr    : Bool
  storeIdemDbErr : Bool
  queueFull      : Bool
  ctxCancelled   : Bool
  selPick        : Bool
  deriving Repr, DecidableEq

/-- Everything one `OrderService.CreateOrder` call produces: its return
value, the two tables afterwards, whether the idempotency write was
attempted, and the event construction/enqueue outcome of step 4 (`none` when
step 4 was never reached). -/
structure CreateOutcome where
  result             : Except RepoErr Order
  orders             : List Order
  idem               : List IdempotencyRecord
  idemWriteAttempted : Bool
  event              : Option OrderCreatedEvent
  enqueue            : Option EnqueueOutcome
  deriving Repr

namespace OrderService

/-- The validity window of stored idempotency responses:
`validityDuration := 10 * time.Minute`. -/
def validityDuration : Nat := 10 * minuteNs

/-- The hit test at the top of `OrderService.CreateOrder`: the lookup
returned a saved response (`err == nil && savedResponse != nil`) and that
response unmarshals into an `Order`. Every other case — not-found, any other
lookup error (logged), or an unmarshal failure (logged) — falls through to
normal creation. -/
def lookupHit (idem : List IdempotencyRecord) (env : Env)
    (en es key : String) : Option Order :=
  match OrderRepository.GetIdempotencyResponse idem env.nowGet
      env.getIdemDbErr en es key with
  | .ok bytes => jsonUnmarshalOrder bytes
  | .error _ => none

/-- `OrderService.CreateOrder(ctx, endpointName, endpointScheme, req)`:
1. idempotency lookup; on a deserializable hit return the cached order with
   no further effects;
2. otherwise persist a new order built from the request fields — a failure
   here aborts the call with that error;
3. store the idempotency response with a 10-minute validity — a failure here
   is logged and swallowed;
4. construct an `OrderCreatedEvent` and attempt a non-blocking enqueue;
5. return the persisted order. -/
def CreateOrder (st : DbState) (env : Env) (en es : String)
    (req : CreateOrderRequest) : CreateOutcome :=
  match lookupHit st.idem env en es req.idempotencyKey with
  | some order =>
    { result := .ok order, orders := st.orders, idem := st.idem,
      idemWriteAttempted := false, event := none, enqueue := none }
  | none =>
    let draft : Order :=
      { id := "", customerID := req.customerID, productID := req.productID,
        quantity := req.quantity, totalPrice := req.totalPrice,
        status := "", orderTime := req.orderTime, createdAt := 0,
        updatedAt := 0 }
    match OrderRepository.CreateOrder st.orders env.nowCreate env.freshId
        env.createDbErr draft with
    | .error e =>
      { result := .error e, orders := st.orders, idem := st.idem,
        idemWriteAttempted := false, event := none, enqueue := none }
    | .ok (orders', order) =>
      let idem' :=
        match OrderRepository.StoreIdempotencyResponse st.idem env.nowStore
            env.storeIdemDbErr en es req.idempotencyKey order
            validityDuration with
        | .ok l => l
        | .error _ => st.idem
      let event : OrderCreatedEvent :=
        { orderID := order.id, customerID := order.customerID,
          productID := order.productID, quantity := order.quantity,
          totalPrice := order.totalPrice, timestamp := env.nowEvent }
      { result := .ok order, orders := orders', idem := idem',
        idemWriteAttempted := true, event := some event,
        enqueue := some (enqueueEvent env.ctxCancelled env.queueFull
          env.selPick) }

end OrderService

/-- The gin binding validation of `CreateOrderRequest`, from its struct
tags as the validator library interprets them:
- `customer_id`, `product_id`, `idempotency_key`: `binding:"required"` — a
  string fails `required` exactly when it is the zero value `""` (a field
  missing from the JSON body is its zero value);
- `quantity`: `binding:"required,min=1"` — `required` fails on the zero
  value `0`, `min=1` fails below 1;
- `total_price`: `binding:"required,min=0"` — `required` fails on the zero
  value `0`, `min=0` fails below 0;
- `order_time`: its struct tag is malformed (the quote of the value of the
  `binding` key is never closed), so `reflect.StructTag` cannot read a
  `binding` key from it and no validation rule applies to the field. -/
def validateCreateOrderRequest (req : CreateOrderRequest) : Bool :=
  (req.customerID != "") && (req.productID != "")
    && (req.quantity != 0 && decide (1 ≤ req.quantity))
    && (req.totalPrice != 0 && decide (0 ≤ req.totalPrice))
    && (req.idempotencyKey != "")

/-- What the claims need of an HTTP response from the POST handler: the
status code and, on 201, the order serialized as the body. -/
structure HandlerOutcome where
  status : Nat
  body   : Option Order
  orders : List Order
  idem   : List IdempotencyRecord
  deriving Repr, DecidableEq

namespace OrderHandler

/-- `OrderHandler.CreateOrder` on a well-formed JSON body: if
`ShouldBindJSON` fails validation respond 400 and stop; otherwise call the
service with `endpointName = c.Request.URL.Path` and
`endpointScheme = c.Request.Method`; a service error is 500, success is 201
with the order. -/
def CreateOrder (st : DbState) (env : Env) (en es : String)
    (req : CreateOrderRequest) : HandlerOutcome :=
  if validateCreateOrderRequest req then
    let out := OrderService.CreateOrder st env en es req
    match out.result with
    | .ok o => { status := 201, body := some o, orders := out.orders,
                 idem := out.idem }
    | .error _ => { status := 500, body := none, orders := out.orders,
                    idem := out.idem }
  else
    { status := 400, body := none, orders := st.orders, idem := st.idem }

end OrderHandler

namespace Worker

/-- The three cases of the worker's `select`. -/
inductive SelectCase where
  | recvEvent
  | ctxDone
  | stopChan
  deriving Repr, DecidableEq

/-- What one loop iteration does when it runs: process exactly the one
received event, or return. -/
inductive StepResult where
  | processed (e : OrderCreatedEvent)
  | stopped
  deriving Repr, DecidableEq

/-- Whether a `select` case is ready: the receive case iff an event is
pending on the channel, the `ctx.Done()` case iff the context is cancelled,
the stop case iff `Stop` has closed the stop channel. -/
def caseReady (pending : Option OrderCreatedEvent)
    (ctxCancelled stopClosed : Bool) : SelectCase → Bool
  | .recvEvent => pending.isSome
  | .ctxDone => ctxCancelled
  | .stopChan => stopClosed

/-- One iteration of `Worker.Start`'s loop, given which ready case the
`select` commits to (`none` when that case is not ready — the `select`
cannot commit to it and keeps blocking). Receiving processes the pending
event and continues; either shutdown case returns from the loop. -/
def iteration (pending : Option OrderCreatedEvent)
    (ctxCancelled stopClosed : Bool) (c : SelectCase) : Option StepResult :=
  if caseReady pending ctxCancelled stopClosed c then
    match c with
    | .recvEvent =>
      match pending with
      | some e => some (.processed e)
      | none => none
    | .ctxDone => some .stopped
    | .stopChan => some .stopped
  else none

end Worker

/-! Helper lemmas shared by the claim theorems. -/

theorem find?_eq_none_of_forall_false {α : Type} (p : α → Bool) (l : List α)
    (h : ∀ x ∈ l, p x = false) : l.find? p = none := by
  induction l with
  | nil => rfl
  | cons a t ih =>
    have ha : p a = false := h a (by simp)
    have ht := ih fun x hx => h x (by simp [hx])
    simp [List.find?, ha, ht]

theorem find?_append_of_forall_false {α : Type} (p : α → Bool)
    (l₁ l₂ : List α) (h : ∀ x ∈ l₁, p x = false) :
    (l₁ ++ l₂).find? p = l₂.find? p := by
  induction l₁ with
  | nil => rfl
  | cons a t ih =>
    have ha : p a = false := h a (by simp)
    have ht := ih fun x hx => h x (by simp [hx])
    simp [List.find?, ha, ht]

theorem any_eq_false_of_forall_false {α : Type} (p : α → Bool) (l : List α)
    (h : ∀ x ∈ l, p x = false) : l.any p = false := by
  simp only [List.any_eq_false]
  intro x hx
  simp [h x hx]

theorem idemRowMatches_eq_triple_and_valid (en es key : String) (now : Nat)
    (r : IdempotencyRecord) :
    OrderRepository.idemRowMatches en es key now r =
      (OrderRepository.tripleMatches en es key r && decide (now < r.validTo)) := by
  simp [OrderRepository.idemRowMatches, OrderRepository.tripleMatches,
    Bool.and_assoc]

theorem get_idem_notFound (idem : List IdempotencyRecord) (now : Nat)
    (en es key : String)
    (h : ∀ r ∈ idem, OrderRepository.idemRowMatches en es key now r = false) :
    OrderRepository.GetIdempotencyResponse idem now false en es key =
      .error .idempotencyNotFound := by
  simp [OrderRepository.GetIdempotencyResponse,
    find?_eq_none_of_forall_false _ _ h]

theorem lookupHit_none_of_rows (idem : List IdempotencyRecord) (env : Env)
    (en es key : String) (hg : env.getIdemDbErr = false)
    (h : ∀ r ∈ idem, OrderRepository.idemRowMatches en es key env.nowGet r = false) :
    OrderService.lookupHit idem env en es key = none := by
  simp [OrderService.lookupHit, hg, get_idem_notFound idem env.nowGet en es key h]

theorem store_idem_fresh (idem : List IdempotencyRecord) (now : Nat)
    (en es key : String) (resp : Order) (v : Nat)
    (h : ∀ r ∈ idem, OrderRepository.tripleMatches en es key r = false) :
    OrderRepository.StoreIdempotencyResponse idem now false en es key resp v =
      .ok (idem ++ [{ endpointName := en, endpointScheme := es, key := key,
                      response := .encoded resp, validTo := now + v,
                      createdAt := now }]) := by
  have hany := any_eq_false_of_forall_false (OrderRepository.tripleMatches en es key) idem h
  simp [OrderRepository.StoreIdempotencyResponse, hany]

theorem get_idem_found_after_append (idem : List IdempotencyRecord)
    (rec : IdempotencyRecord) (now : Nat) (en es key : String)
    (h : ∀ r ∈ idem, OrderRepository.idemRowMatches en es key now r = false)
    (hrec : OrderRepository.idemRowMatches en es key now rec = true) :
    OrderRepository.GetIdempotencyResponse (idem ++ [rec]) now false en es key =
      .ok rec.response := by
  simp [OrderRepository.GetIdempotencyResponse,
    find?_append_of_forall_false _ _ _ h, List.find?, hrec]

/-- The fully populated order a miss-path call persists. -/
def createdOrder (env : Env) (req : CreateOrderRequest) : Order :=
  { id := env.freshId, customerID := req.customerID,
    productID := req.productID, quantity := req.quantity,
    totalPrice := req.totalPrice, status := "created",
    orderTime := if req.orderTime = 0 then env.nowCreate else req.orderTime,
    createdAt := env.nowCreate, updatedAt := env.nowCreate }

theorem createOrder_miss_eq (st : DbState) (env : Env) (en es : String)
    (req : CreateOrderRequest)
    (hmiss : OrderService.lookupHit st.idem env en es req.idempotencyKey = none)
    (hc : env.createDbErr = false) :
    OrderService.CreateOrder st env en es req =
      { result := .ok (createdOrder env req),
        orders := st.orders ++ [createdOrder env req],
        idem := match OrderRepository.StoreIdempotencyResponse st.idem
            env.nowStore env.storeIdemDbErr en es req.idempotencyKey
            (createdOrder env req) OrderService.validityDuration with
          | .ok l => l
          | .error _ => st.idem,
        idemWriteAttempted := true,
        event := some { orderID := (createdOrder env req).id,
                        customerID := (createdOrder env req).customerID,
                        productID := (createdOrder env req).productID,
                        quantity := (createdOrder env req).quantity,
                        totalPrice := (createdOrder env req).totalPrice,
                        timestamp := env.nowEvent },
        enqueue := some (enqueueEvent env.ctxCancelled env.queueFull
          env.selPick) } := by
  simp [OrderService.CreateOrder, hmiss, OrderRepository.CreateOrder, hc,
    createdOrder]

/-! Concrete sample inputs used by the witness theorems. -/

def sampleReq : CreateOrderRequest :=
  { customerID := "c1", productID := "p1", quantity := 2,
    totalPrice := 201/2, orderTime := 0, idempotencyKey := "k1" }

def sampleEnv1 : Env :=
  { nowGet := 0, nowCreate := 5, nowStore := 6, nowEvent := 7,
    freshId := "uuid-1", getIdemDbErr := false, createDbErr := false,
    storeIdemDbErr := false, queueFull := false, ctxCancelled := false,
    selPick := false }

def sampleEnv2 : Env := { sampleEnv1 with nowGet := 1000, freshId := "uuid-2" }

/-- C1: a creation with a fresh key-triple, followed within the 10-minute
validity window by a second `CreateOrder` with the identical key-triple,
has the second call return the order of the first response (round-tripped
through the cached JSON record), leave both tables unchanged (no second
order row, no idempotency write), and reach neither the event construction
nor the enqueue. -/
theorem c1_fresh_create_then_replay_within_window
    (st : DbState) (env1 env2 : Env) (en es : String)
    (req req2 : CreateOrderRequest)
    (hkey : req2.idempotencyKey = req.idempotencyKey)
    (hfresh : ∀ r ∈ st.idem,
      OrderRepository.tripleMatches en es req.idempotencyKey r = false)
    (h1g : env1.getIdemDbErr = false) (h1c : env1.createDbErr = false)
    (h1s : env1.storeIdemDbErr = false) (h2g : env2.getIdemDbErr = false)
    (hwin : env2.nowGet < env1.nowStore + OrderService.validityDuration) :
    ∃ o1 : Order,
      (OrderService.CreateOrder st env1 en es req).result = .ok o1 ∧
      OrderService.CreateOrder
        ⟨(OrderService.CreateOrder st env1 en es req).orders,
         (OrderService.CreateOrder st env1 en es req).idem⟩ env2 en es req2 =
      { result := .ok o1,
        orders := (OrderService.CreateOrder st env1 en es req).orders,
        idem := (OrderService.CreateOrder st env1 en es req).idem,
        idemWriteAttempted := false, event := none, enqueue := none } := by
  have hrows1 : ∀ r ∈ st.idem,
      OrderRepository.idemRowMatches en es req.idempotencyKey env1.nowGet r
        = false := by
    intro r hr
    rw [idemRowMatches_eq_triple_and_valid, hfresh r hr]
    simp
  have hmiss1 := lookupHit_none_of_rows st.idem env1 en es
    req.idempotencyKey h1g hrows1
  have hout1 := createOrder_miss_eq st env1 en es req hmiss1 h1c
  set o1 := createdOrder env1 req with ho1
  set rec : IdempotencyRecord :=
    { endpointName := en, endpointScheme := es, key := req.idempotencyKey,
      response := .encoded o1,
      validTo := env1.nowStore + OrderService.validityDuration,
      createdAt := env1.nowStore } with hrec_def
  have hstore : OrderRepository.StoreIdempotencyResponse st.idem
      env1.nowStore env1.storeIdemDbErr en es req.idempotencyKey o1
      OrderService.validityDuration = .ok (st.idem ++ [rec]) := by
    rw [h1s]
    exact store_idem_fresh st.idem env1.nowStore en es req.idempotencyKey o1
      OrderService.validityDuration hfresh
  have hrows2 : ∀ r ∈ st.idem,
      OrderRepository.idemRowMatches en es req.idempotencyKey env2.nowGet r
        = false := by
    intro r hr
    rw [idemRowMatches_eq_triple_and_valid, hfresh r hr]
    simp
  have hrec : OrderRepository.idemRowMatches en es req.idempotencyKey
      env2.nowGet rec = true := by
    simp [OrderRepository.idemRowMatches, hrec_def, hwin]
  have hget2 := get_idem_found_after_append st.idem rec env2.nowGet en es
    req.idempotencyKey hrows2 hrec
  have hhit2 : OrderService.lookupHit (st.idem ++ [rec]) env2 en es
      req2.idempotencyKey = some o1 := by
    rw [hkey]
    simp [OrderService.lookupHit, h2g, hget2, hrec_def, jsonUnmarshalOrder]
  refine ⟨o1, ?_, ?_⟩
  · rw [hout1]
  · simp only [hout1, hstore]
    simp [OrderService.CreateOrder, hhit2]

/-- C1 witness: the two-call scenario at concrete inputs. -/
theorem c1_fresh_create_then_replay_within_window_witness :
    ∃ o1 : Order,
      (OrderService.CreateOrder ⟨[], []⟩ sampleEnv1 "/orders" "POST"
        sampleReq).result = .ok o1 ∧
      OrderService.CreateOrder
        ⟨(OrderService.CreateOrder ⟨[], []⟩ sampleEnv1 "/orders" "POST"
            sampleReq).orders,
         (OrderService.CreateOrder ⟨[], []⟩ sampleEnv1 "/orders" "POST"
            sampleReq).idem⟩ sampleEnv2 "/orders" "POST" sampleReq =
      { result := .ok o1,
        orders := (OrderService.CreateOrder ⟨[], []⟩ sampleEnv1 "/orders"
          "POST" sampleReq).orders,
        idem := (OrderService.CreateOrder ⟨[], []⟩ sampleEnv1 "/orders"
          "POST" sampleReq).idem,
        idemWriteAttempted := false, event := none, enqueue := none } :=
  c1_fresh_create_then_replay_within_window ⟨[], []⟩ sampleEnv1 sampleEnv2
    "/orders" "POST" sampleReq sampleReq rfl (by simp) rfl rfl rfl rfl
    (by decide)

/-- C2: when the order insert itself fails, `CreateOrder` surfaces that
error and stops: no order row is added, no idempotency write is attempted,
and no event is constructed or enqueued. -/
theorem c2_order_persist_failure_aborts
    (st : DbState) (env : Env) (en es : String) (req : CreateOrderRequest)
    (hmiss : OrderService.lookupHit st.idem env en es req.idempotencyKey
      = none)
    (hc : env.createDbErr = true) :
    OrderService.CreateOrder st env en es req =
      { result := .error .dbError, orders := st.orders, idem := st.idem,
        idemWriteAttempted := false, event := none, enqueue := none } := by
  simp [OrderService.CreateOrder, hmiss, OrderRepository.CreateOrder, hc]

def envCreateFail : Env := { sampleEnv1 with createDbErr := true }

/-- C2 witness: a failed insert at a concrete input. -/
theorem c2_order_persist_failure_aborts_witness :
    OrderService.CreateOrder ⟨[], []⟩ envCreateFail "/orders" "POST"
      sampleReq =
      { result := .error .dbError, orders := [], idem := [],
        idemWriteAttempted := false, event := none, enqueue := none } :=
  c2_order_persist_failure_aborts ⟨[], []⟩ envCreateFail "/orders" "POST"
    sampleReq rfl rfl

def zeroPriceReq : CreateOrderRequest :=
  { customerID := "c1", productID := "p1", quantity := 1,
    totalPrice := 0, orderTime := 0, idempotencyKey := "k1" }

/-- C3 counterexample: a request with `quantity = 1 ≥ 1`,
`total_price = 0 ≥ 0` and every required field present is nevertheless
rejected with 400 and creates no order, because the validator rule
`required` on the `float64` field `total_price` fails on the zero value. -/
theorem c3_zero_price_rejected_counterexample :
    (1 ≤ zeroPriceReq.quantity ∧ 0 ≤ zeroPriceReq.totalPrice ∧
      zeroPriceReq.customerID ≠ "" ∧ zeroPriceReq.productID ≠ "" ∧
      zeroPriceReq.idempotencyKey ≠ "") ∧
    validateCreateOrderRequest zeroPriceReq = false ∧
    OrderHandler.CreateOrder ⟨[], []⟩ sampleEnv1 "/orders" "POST"
      zeroPriceReq = { status := 400, body := none, orders := [], idem := [] }
    := by
  refine ⟨by decide, by decide, ?_⟩
  simp [OrderHandler.CreateOrder, validateCreateOrderRequest, zeroPriceReq]

/-- C3 (amended): validation passes exactly when `customer_id`,
`product_id` and `idempotency_key` are non-empty, `quantity ≥ 1` and
`total_price > 0` — strictly positive, because the `required` rule rejects
the zero value 0 before `min=0` is consulted — and a request failing
validation gets 400 with no order created. -/
theorem c3_validation_characterization (st : DbState) (env : Env)
    (en es : String) (req : CreateOrderRequest) :
    (validateCreateOrderRequest req = true ↔
      (req.customerID ≠ "" ∧ req.productID ≠ "" ∧ 1 ≤ req.quantity ∧
        0 < req.totalPrice ∧ req.idempotencyKey ≠ "")) ∧
    (validateCreateOrderRequest req = false →
      OrderHandler.CreateOrder st env en es req =
        { status := 400, body := none, orders := st.orders,
          idem := st.idem }) := by
  constructor
  · simp only [validateCreateOrderRequest, Bool.and_eq_true, bne_iff_ne,
      decide_eq_true_eq]
    constructor
    · rintro ⟨⟨⟨⟨h1, h2⟩, hq0, hq1⟩, hp0, hp1⟩, h5⟩
      exact ⟨h1, h2, hq1, lt_of_le_of_ne hp1 (Ne.symm hp0), h5⟩
    · rintro ⟨h1, h2, hq1, hp, h5⟩
      exact ⟨⟨⟨⟨h1, h2⟩, by omega, hq1⟩, ne_of_gt hp, le_of_lt hp⟩, h5⟩
  · intro h
    simp [OrderHandler.CreateOrder, h]

/-- C3 witness: the 400 path of the amended claim at a concrete input. -/
theorem c3_validation_characterization_witness :
    OrderHandler.CreateOrder ⟨[], []⟩ sampleEnv1 "/orders" "POST"
      zeroPriceReq =
      { status := 400, body := none, orders := [], idem := [] } :=
  (c3_validation_characterization ⟨[], []⟩ sampleEnv1 "/orders" "POST"
    zeroPriceReq).2 (by decide)

/-- C4: `order_time` has no effect on validation (its malformed struct tag
leaves it without a binding rule) while zeroing any other field fails
validation, and the store's create on a zero-time draft fills `orderTime`
with now, stamps `createdAt` and `updatedAt` to now, sets status
`"created"`, and assigns the fresh non-empty id before returning the
populated order. -/
theorem c4_order_time_optional_and_create_populates
    (req : CreateOrderRequest) (t : Nat) (orders : List Order) (now : Nat)
    (freshId : String) (draft : Order)
    (hzero : draft.orderTime = 0) (hid : freshId ≠ "") :
    validateCreateOrderRequest { req with orderTime := t }
      = validateCreateOrderRequest req ∧
    validateCreateOrderRequest { req with customerID := "" } = false ∧
    validateCreateOrderRequest { req with productID := "" } = false ∧
    validateCreateOrderRequest { req with quantity := 0 } = false ∧
    validateCreateOrderRequest { req with totalPrice := 0 } = false ∧
    validateCreateOrderRequest { req with idempotencyKey := "" } = false ∧
    ∃ o : Order,
      OrderRepository.CreateOrder orders now freshId false draft =
        .ok (orders ++ [o], o) ∧
      o.orderTime = now ∧ o.createdAt = now ∧ o.updatedAt = now ∧
      o.status = "created" ∧ o.id = freshId ∧ o.id ≠ "" := by
  refine ⟨by simp [validateCreateOrderRequest],
    by simp [validateCreateOrderRequest],
    by simp [validateCreateOrderRequest],
    by simp [validateCreateOrderRequest],
    by simp [validateCreateOrderRequest],
    by simp [validateCreateOrderRequest], ?_⟩
  refine ⟨⟨freshId, draft.customerID, draft.productID, draft.quantity,
    draft.totalPrice, "created", now, now, now⟩,
    by simp [OrderRepository.CreateOrder, hzero], rfl, rfl, rfl, rfl, rfl,
    hid⟩

def sampleDraft : Order :=
  { id := "", customerID := "c1", productID := "p1", quantity := 2,
    totalPrice := 201/2, status := "", orderTime := 0, createdAt := 0,
    updatedAt := 0 }

/-- C4 witness: the conjunction at concrete inputs. -/
theorem c4_order_time_optional_and_create_populates_witness :
    validateCreateOrderRequest { sampleReq with orderTime := 42 }
      = validateCreateOrderRequest sampleReq ∧
    validateCreateOrderRequest { sampleReq with customerID := "" } = false ∧
    validateCreateOrderRequest { sampleReq with productID := "" } = false ∧
    validateCreateOrderRequest { sampleReq with quantity := 0 } = false ∧
    validateCreateOrderRequest { sampleReq with totalPrice := 0 } = false ∧
    validateCreateOrderRequest { sampleReq with idempotencyKey := "" }
      = false ∧
    ∃ o : Order,
      OrderRepository.CreateOrder [] 5 "uuid-1" false sampleDraft =
        .ok ([] ++ [o], o) ∧
      o.orderTime = 5 ∧ o.createdAt = 5 ∧ o.updatedAt = 5 ∧
      o.status = "created" ∧ o.id = "uuid-1" ∧ o.id ≠ "" :=
  c4_order_time_optional_and_create_populates sampleReq 42 [] 5 "uuid-1"
    sampleDraft rfl (by decide)

/-- C5: when every record for the key-triple has `valid_to ≤ now`, the
lookup returns the not-found outcome exactly as if no record existed, and a
creation replaying that key-triple persists a new order carrying the fresh
identifier — different from the stale cached order's identifier — instead
of replaying the cached response. -/
theorem c5_expired_record_indistinguishable_from_absent
    (st : DbState) (env : Env) (en es : String) (req : CreateOrderRequest)
    (os : Order)
    (hstale : ∃ r ∈ st.idem,
      OrderRepository.tripleMatches en es req.idempotencyKey r = true ∧
      r.response = .encoded os)
    (hexp : ∀ r ∈ st.idem,
      OrderRepository.tripleMatches en es req.idempotencyKey r = true →
      r.validTo ≤ env.nowGet)
    (hg : env.getIdemDbErr = false) (hc : env.createDbErr = false)
    (hfreshId : env.freshId ≠ os.id) :
    OrderRepository.GetIdempotencyResponse st.idem env.nowGet false en es
      req.idempotencyKey = .error .idempotencyNotFound ∧
    ∃ o : Order,
      (OrderService.CreateOrder st env en es req).result = .ok o ∧
      (OrderService.CreateOrder st env en es req).orders
        = st.orders ++ [o] ∧
      o.id = env.freshId ∧ o.id ≠ os.id := by
  have hrows : ∀ r ∈ st.idem,
      OrderRepository.idemRowMatches en es req.idempotencyKey env.nowGet r
        = false := by
    intro r hr
    rw [idemRowMatches_eq_triple_and_valid]
    cases htr : OrderRepository.tripleMatches en es req.idempotencyKey r with
    | false => simp
    | true =>
      have hle := hexp r hr htr
      simp
      omega
  have hget := get_idem_notFound st.idem env.nowGet en es
    req.idempotencyKey hrows
  refine ⟨hget, ?_⟩
  have hmiss : OrderService.lookupHit st.idem env en es req.idempotencyKey
      = none := by
    simp [OrderService.lookupHit, hg, hget]
  have hout := createOrder_miss_eq st env en es req hmiss hc
  refine ⟨createdOrder env req, by rw [hout], by rw [hout], rfl, ?_⟩
  simpa [createdOrder] using hfreshId

def staleOrder : Order :=
  { id := "uuid-0", customerID := "c1", productID := "p1", quantity := 2,
    totalPrice := 201/2, status := "created", orderTime := 1, createdAt := 1,
    updatedAt := 1 }

def expiredRecord : IdempotencyRecord :=
  { endpointName := "/orders", endpointScheme := "POST", key := "k1",
    response := .encoded staleOrder, validTo := 3, createdAt := 1 }

def envAfterExpiry : Env := { sampleEnv1 with nowGet := 10 }

/-- C5 witness: replay of an expired record at concrete inputs. -/
theorem c5_expired_record_indistinguishable_from_absent_witness :
    OrderRepository.GetIdempotencyResponse [expiredRecord] 10 false
      "/orders" "POST" "k1" = .error .idempotencyNotFound ∧
    ∃ o : Order,
      (OrderService.CreateOrder ⟨[], [expiredRecord]⟩ envAfterExpiry
        "/orders" "POST" sampleReq).result = .ok o ∧
      (OrderService.CreateOrder ⟨[], [expiredRecord]⟩ envAfterExpiry
        "/orders" "POST" sampleReq).orders = [] ++ [o] ∧
      o.id = "uuid-1" ∧ o.id ≠ staleOrder.id :=
  c5_expired_record_indistinguishable_from_absent ⟨[], [expiredRecord]⟩
    envAfterExpiry "/orders" "POST" sampleReq staleOrder
    ⟨expiredRecord, by simp, by decide, rfl⟩ (by decide) rfl rfl (by decide)

/-- C6: when a creation reaches step 4, the enqueue is a single attempt
whose outcome is classified by the channel/context state (`droppedFull` on
a saturated queue with a live context, `droppedCancelled` on a cancelled
context with a saturated queue, `delivered` when the queue has room and the
context is live), and in every such case — the queue-state and context
inputs are arbitrary here — the call still returns the persisted order. -/
theorem c6_enqueue_outcomes_and_success
    (st : DbState) (env : Env) (en es : String) (req : CreateOrderRequest)
    (hmiss : OrderService.lookupHit st.idem env en es req.idempotencyKey
      = none)
    (hc : env.createDbErr = false) :
    (OrderService.CreateOrder st env en es req).result
      = .ok (createdOrder env req) ∧
    (OrderService.CreateOrder st env en es req).orders
      = st.orders ++ [createdOrder env req] ∧
    (OrderService.CreateOrder st env en es req).enqueue
      = some (enqueueEvent env.ctxCancelled env.queueFull env.selPick) ∧
    (env.ctxCancelled = false → env.queueFull = true →
      (OrderService.CreateOrder st env en es req).enqueue
        = some .droppedFull) ∧
    (env.ctxCancelled = true → env.queueFull = true →
      (OrderService.CreateOrder st env en es req).enqueue
        = some .droppedCancelled) ∧
    (env.ctxCancelled = false → env.queueFull = false →
      (OrderService.CreateOrder st env en es req).enqueue
        = some .delivered) := by
  have hout := createOrder_miss_eq st env en es req hmiss hc
  refine ⟨by rw [hout], by rw [hout], by rw [hout], ?_, ?_, ?_⟩ <;>
    intro h1 h2 <;> rw [hout] <;> simp [enqueueEvent, h1, h2]

def envQueueFull : Env := { sampleEnv1 with queueFull := true }

/-- C6 witness: a saturated queue with a live context at concrete inputs. -/
theorem c6_enqueue_outcomes_and_success_witness :
    (OrderService.CreateOrder ⟨[], []⟩ envQueueFull "/orders" "POST"
      sampleReq).result = .ok (createdOrder envQueueFull sampleReq) ∧
    (OrderService.CreateOrder ⟨[], []⟩ envQueueFull "/orders" "POST"
      sampleReq).orders = [] ++ [createdOrder envQueueFull sampleReq] ∧
    (OrderService.CreateOrder ⟨[], []⟩ envQueueFull "/orders" "POST"
      sampleReq).enqueue = some (enqueueEvent false true false) ∧
    (false = false → true = true →
      (OrderService.CreateOrder ⟨[], []⟩ envQueueFull "/orders" "POST"
        sampleReq).enqueue = some .droppedFull) ∧
    (false = true → true = true →
      (OrderService.CreateOrder ⟨[], []⟩ envQueueFull "/orders" "POST"
        sampleReq).enqueue = some .droppedCancelled) ∧
    (false = false → true = false →
      (OrderService.CreateOrder ⟨[], []⟩ envQueueFull "/orders" "POST"
        sampleReq).enqueue = some .delivered) :=
  c6_enqueue_outcomes_and_success ⟨[], []⟩ envQueueFull "/orders" "POST"
    sampleReq rfl rfl

/-- C7: no idempotency-store failure fails a creation: a lookup error other
than not-found is treated as a miss and creation proceeds to return the new
order; a cached record that fails to deserialize also falls through to
normal creation; and a failed idempotency write after the order was
persisted leaves the idempotency table as it was while the call still
returns the created order. -/
theorem c7_idempotency_failures_degrade_silently
    (st : DbState) (env : Env) (en es : String) (req : CreateOrderRequest)
    (hc : env.createDbErr = false) :
    (env.getIdemDbErr = true →
      (OrderService.CreateOrder st env en es req).result
        = .ok (createdOrder env req)) ∧
    (OrderRepository.GetIdempotencyResponse st.idem env.nowGet
        env.getIdemDbErr en es req.idempotencyKey = .ok .garbage →
      (OrderService.CreateOrder st env en es req).result
        = .ok (createdOrder env req)) ∧
    (env.storeIdemDbErr = true →
      OrderService.lookupHit st.idem env en es req.idempotencyKey = none →
      (OrderService.CreateOrder st env en es req).result
        = .ok (createdOrder env req) ∧
      (OrderService.CreateOrder st env en es req).idem = st.idem ∧
      (OrderService.CreateOrder st env en es req).orders
        = st.orders ++ [createdOrder env req]) := by
  refine ⟨?_, ?_, ?_⟩
  · intro hg
    have hmiss : OrderService.lookupHit st.idem env en es
        req.idempotencyKey = none := by
      simp [OrderService.lookupHit, OrderRepository.GetIdempotencyResponse,
        hg]
    rw [createOrder_miss_eq st env en es req hmiss hc]
  · intro hok
    have hmiss : OrderService.lookupHit st.idem env en es
        req.idempotencyKey = none := by
      simp [OrderService.lookupHit, hok, jsonUnmarshalOrder]
    rw [createOrder_miss_eq st env en es req hmiss hc]
  · intro hs hmiss
    have hout := createOrder_miss_eq st env en es req hmiss hc
    refine ⟨by rw [hout], ?_, by rw [hout]⟩
    rw [hout]
    simp [OrderRepository.StoreIdempotencyResponse, hs]

def envGetFail : Env := { sampleEnv1 with getIdemDbErr := true }

/-- C7 witness: a degraded idempotency lookup at concrete inputs. -/
theorem c7_idempotency_failures_degrade_silently_witness :
    (OrderService.CreateOrder ⟨[], []⟩ envGetFail "/orders" "POST"
      sampleReq).result = .ok (createdOrder envGetFail sampleReq) :=
  (c7_idempotency_failures_degrade_silently ⟨[], []⟩ envGetFail "/orders"
    "POST" sampleReq rfl).1 rfl

/-- C8: one iteration of the worker loop either processes exactly the one
received event or returns; a return happens only when the owning context is
cancelled or the stop channel is closed; and whenever either of those two
signals has fired a returning step is ready for the select to commit to. -/
theorem c8_worker_loop_iteration
    (pending : Option OrderCreatedEvent) (cc sc : Bool)
    (c : Worker.SelectCase) :
    (Worker.iteration pending cc sc c = some .stopped →
      cc = true ∨ sc = true) ∧
    ((cc = true ∨ sc = true) →
      ∃ c2, Worker.iteration pending cc sc c2 = some .stopped) ∧
    (∀ r, Worker.iteration pending cc sc c = some r →
      r = .stopped ∨ ∃ e, r = .processed e ∧ pending = some e) := by
  refine ⟨?_, ?_, ?_⟩
  · intro h
    cases c with
    | recvEvent =>
      cases pending <;> simp [Worker.iteration, Worker.caseReady] at h
    | ctxDone =>
      cases cc with
      | false => simp [Worker.iteration, Worker.caseReady] at h
      | true => exact Or.inl rfl
    | stopChan =>
      cases sc with
      | false => simp [Worker.iteration, Worker.caseReady] at h
      | true => exact Or.inr rfl
  · rintro (h | h)
    · exact ⟨.ctxDone, by simp [Worker.iteration, Worker.caseReady, h]⟩
    · exact ⟨.stopChan, by simp [Worker.iteration, Worker.caseReady, h]⟩
  · intro r h
    cases c with
    | recvEvent =>
      cases pending with
      | none => simp [Worker.iteration, Worker.caseReady] at h
      | some e =>
        simp [Worker.iteration, Worker.caseReady] at h
        exact Or.inr ⟨e, h ▸ rfl, rfl⟩
    | ctxDone =>
      cases cc <;> simp [Worker.iteration, Worker.caseReady] at h <;>
        exact Or.inl h.symm
    | stopChan =>
      cases sc <;> simp [Worker.iteration, Worker.caseReady] at h <;>
        exact Or.inl h.symm

/-- C8 witness: with the context cancelled, a returning step exists. -/
theorem c8_worker_loop_iteration_witness :
    ∃ c2, Worker.iteration none true false c2 = some .stopped :=
  (c8_worker_loop_iteration none true false .recvEvent).2.1 (Or.inl rfl)

/-- C9: on a deserializable idempotency hit the whole outcome is a function
of the cached record alone — two calls sharing the key-triple on the same
state produce identical outcomes even when the other request fields differ,
and that outcome is the cached order with no side effects. -/
theorem c9_hit_ignores_other_request_fields
    (st : DbState) (env : Env) (en es : String)
    (req1 req2 : CreateOrderRequest) (o : Order)
    (hkey : req1.idempotencyKey = req2.idempotencyKey)
    (hhit : OrderService.lookupHit st.idem env en es req1.idempotencyKey
      = some o) :
    OrderService.CreateOrder st env en es req1
      = OrderService.CreateOrder st env en es req2 ∧
    OrderService.CreateOrder st env en es req1 =
      { result := .ok o, orders := st.orders, idem := st.idem,
        idemWriteAttempted := false, event := none, enqueue := none } := by
  have hhit2 : OrderService.lookupHit st.idem env en es
      req2.idempotencyKey = some o := hkey ▸ hhit
  constructor <;> simp [OrderService.CreateOrder, hhit, hhit2]

def validRecord : IdempotencyRecord :=
  { endpointName := "/orders", endpointScheme := "POST", key := "k1",
    response := .encoded staleOrder, validTo := 1000000, createdAt := 1 }

def otherFieldsReq : CreateOrderRequest :=
  { customerID := "c2", productID := "p9", quantity := 7,
    totalPrice := 3, orderTime := 77, idempotencyKey := "k1" }

/-- C9 witness: two requests differing in every non-key field replay the
same cached order at concrete inputs. -/
theorem c9_hit_ignores_other_request_fields_witness :
    OrderService.CreateOrder ⟨[], [validRecord]⟩ sampleEnv1 "/orders"
      "POST" sampleReq
      = OrderService.CreateOrder ⟨[], [validRecord]⟩ sampleEnv1 "/orders"
        "POST" otherFieldsReq ∧
    OrderService.CreateOrder ⟨[], [validRecord]⟩ sampleEnv1 "/orders"
      "POST" sampleReq =
      { result := .ok staleOrder, orders := [], idem := [validRecord],
        idemWriteAttempted := false, event := none, enqueue := none } :=
  c9_hit_ignores_other_request_fields ⟨[], [validRecord]⟩ sampleEnv1
    "/orders" "POST" sampleReq otherFieldsReq staleOrder rfl rfl

/-- C10: when the upsert of `StoreIdempotencyResponse` hits an existing row
for the key-triple, the conflict update rewrites only the `response` and
`valid_to` columns: every row keeps its key columns and its original
`created_at`, rows not matching the triple are untouched, and no row is
added or removed. -/
theorem c10_upsert_conflict_preserves_created_at
    (idem : List IdempotencyRecord) (now : Nat) (en es key : String)
    (resp : Order) (v : Nat)
    (hconf : idem.any (OrderRepository.tripleMatches en es key) = true) :
    ∃ idem2,
      OrderRepository.StoreIdempotencyResponse idem now false en es key
        resp v = .ok idem2 ∧
      idem2.length = idem.length ∧
      ∀ i, ∀ (h : i < idem.length) (h2 : i < idem2.length),
        (idem2.get ⟨i, h2⟩).createdAt = (idem.get ⟨i, h⟩).createdAt ∧
        (idem2.get ⟨i, h2⟩).endpointName = (idem.get ⟨i, h⟩).endpointName ∧
        (idem2.get ⟨i, h2⟩).endpointScheme
          = (idem.get ⟨i, h⟩).endpointScheme ∧
        (idem2.get ⟨i, h2⟩).key = (idem.get ⟨i, h⟩).key ∧
        (OrderRepository.tripleMatches en es key (idem.get ⟨i, h⟩) = true →
          (idem2.get ⟨i, h2⟩).response = .encoded resp ∧
          (idem2.get ⟨i, h2⟩).validTo = now + v) ∧
        (OrderRepository.tripleMatches en es key (idem.get ⟨i, h⟩) = false →
          idem2.get ⟨i, h2⟩ = idem.get ⟨i, h⟩) := by
  refine ⟨idem.map fun r =>
      if OrderRepository.tripleMatches en es key r then
        { r with response := .encoded resp, validTo := now + v }
      else r,
    by simp [OrderRepository.StoreIdempotencyResponse, hconf], by simp, ?_⟩
  intro i h h2
  simp only [List.get_eq_getElem, List.getElem_map]
  cases htr : OrderRepository.tripleMatches en es key idem[i] with
  | false => simp [htr]
  | true => simp [htr]

/-- C10 witness: a conflicting upsert over a one-row table at concrete
inputs. -/
theorem c10_upsert_conflict_preserves_created_at_witness :
    ∃ idem2,
      OrderRepository.StoreIdempotencyResponse [expiredRecord] 50 false
        "/orders" "POST" "k1" staleOrder 600 = .ok idem2 ∧
      idem2.length = [expiredRecord].length ∧
      ∀ i, ∀ (h : i < [expiredRecord].length) (h2 : i < idem2.length),
        (idem2.get ⟨i, h2⟩).createdAt
          = ([expiredRecord].get ⟨i, h⟩).createdAt ∧
        (idem2.get ⟨i, h2⟩).endpointName
          = ([expiredRecord].get ⟨i, h⟩).endpointName ∧
        (idem2.get ⟨i, h2⟩).endpointScheme
          = ([expiredRecord].get ⟨i, h⟩).endpointScheme ∧
        (idem2.get ⟨i, h2⟩).key = ([expiredRecord].get ⟨i, h⟩).key ∧
        (OrderRepository.tripleMatches "/orders" "POST" "k1"
            ([expiredRecord].get ⟨i, h⟩) = true →
          (idem2.get ⟨i, h2⟩).response = .encoded staleOrder ∧
          (idem2.get ⟨i, h2⟩).validTo = 50 + 600) ∧
        (OrderRepository.tripleMatches "/orders" "POST" "k1"
            ([expiredRecord].get ⟨i, h⟩) = false →
          idem2.get ⟨i, h2⟩ = [expiredRecord].get ⟨i, h⟩) :=
  c10_upsert_conflict_preserves_created_at [expiredRecord] 50 "/orders"
    "POST" "k1" staleOrder 600 (by decide)
